import Mathlib

/-!
Shallow embedding of the ConverterPIX model module (src/model/model.cpp):
byte-buffer readers, the in-memory model aggregate, the two geometry
decoders (pmg 0x13 and pmg 0x14), the descriptor decoder (pmd), and the
load/destroy orchestration, together with theorems checking the
specification claims against these definitions.

Machine integers are modelled as Nat (unsigned) and Int (signed) with
explicit reductions mod 256 or mod 2^32 where the code reads bytes and
words.  32-bit floats are carried as their raw bit patterns (Nat): the
decoders only copy them, except the vertex colors, which the code
converts with 2.f * byte / 255.f; those are modelled over the rationals.

The fixed record layouts declared in the headers pmg_0x13.h, pmg_0x14.h
and the pmd header (not part of src/) are modelled as Lean structures
whose fields are exactly the ones model.cpp consumes; the pointer casts
of the code then become plain field reads.  Data that no code path in
model.cpp inspects (bone matrices, locator transforms) is left out of
those record structures.
-/

namespace ConverterPIX

/-- A byte buffer: a total map from offsets to byte values (values are
reduced mod 256 on every read). -/
def Buf : Type := Nat → Nat

def readU8 (b : Buf) (i : Nat) : Nat := b i % 256

def readU16 (b : Buf) (i : Nat) : Nat := readU8 b i + 256 * readU8 b (i + 1)

def readU32 (b : Buf) (i : Nat) : Nat :=
  readU8 b i + 256 * readU8 b (i + 1) + 65536 * readU8 b (i + 2) + 16777216 * readU8 b (i + 3)

/-- Reinterpret a byte value as a signed 8-bit integer (int8_t). -/
def toI8 (n : Nat) : Int := if n % 256 < 128 then (n % 256 : Int) else (n % 256 : Int) - 256

def readI8 (b : Buf) (i : Nat) : Int := toI8 (readU8 b i)

/-- Read a 32-bit signed little-endian integer. -/
def readI32 (b : Buf) (i : Nat) : Int :=
  if readU32 b i < 2147483648 then (readU32 b i : Int) else (readU32 b i : Int) - 4294967296

/-- A 3-float vector is carried as its three raw 32-bit patterns. -/
def readF3 (b : Buf) (i : Nat) : Nat × Nat × Nat := (readU32 b i, readU32 b (i + 4), readU32 b (i + 8))

/-- A 2-float vector (texture coordinate) as two raw 32-bit patterns. -/
def readF2 (b : Buf) (i : Nat) : Nat × Nat := (readU32 b i, readU32 b (i + 4))

/-- Color channel decode rule of the code: 2.f * byteValue / 255.f,
modelled exactly over the rationals. -/
def colorChan (v : Nat) : Rat := (2 * v : Rat) / 255

/-- pmg_vert_color_t: four channel bytes r, g, b, a in order. -/
def readColor (b : Buf) (i : Nat) : List Rat :=
  [colorChan (readU8 b i), colorChan (readU8 b (i + 1)),
   colorChan (readU8 b (i + 2)), colorChan (readU8 b (i + 3))]

/-- pmg_vert_tangent_t (float fields w, x, y, z): four raw 32-bit words in
source order; the decoder stores m_tangent as [w, x, y, z]. -/
def readTangent (b : Buf) (i : Nat) : List Nat :=
  [readU32 b i, readU32 b (i + 4), readU32 b (i + 8), readU32 b (i + 12)]

/-- A triangle index record: three 16-bit vertex indices. -/
def readTri (b : Buf) (i : Nat) : Nat × Nat × Nat := (readU16 b i, readU16 b (i + 2), readU16 b (i + 4))

/-- Modelled from the spec: Vertex::BONE_COUNT is a compile-time constant
declared in model.h (not part of src/); its concrete value is taken as 8,
the claims only rely on it being at least 4. -/
def BONE_COUNT : Nat := 8

/-- In-memory vertex (model.h is not part of src/, so the shape follows
exactly the fields model.cpp assigns; defaults model the
default-constructed state, with unused bone slots at (-1, 0)). -/
structure Vertex where
  m_position : Nat × Nat × Nat := (0, 0, 0)
  m_normal : Nat × Nat × Nat := (0, 0, 0)
  m_tangent : List Nat := [0, 0, 0, 0]
  m_texcoords : List (Nat × Nat) := []
  m_color : List Rat := [0, 0, 0, 0]
  m_color2 : List Rat := [0, 0, 0, 0]
  m_boneIndex : List Int := List.replicate BONE_COUNT (-1)
  m_boneWeight : List Nat := List.replicate BONE_COUNT 0
deriving Repr, DecidableEq

instance : Inhabited Vertex := ⟨{}⟩

structure Piece where
  m_index : Nat := 0
  m_texcoordMask : Nat := 0
  m_texcoordCount : Nat := 0
  m_bones : Nat := 0
  m_material : Int := 0
  m_streamCount : Nat := 0
  m_position : Bool := false
  m_normal : Bool := false
  m_tangent : Bool := false
  m_texcoord : Bool := false
  m_color : Bool := false
  m_color2 : Bool := false
  m_vertices : List Vertex := []
  m_triangles : List (Nat × Nat × Nat) := []
deriving Repr, DecidableEq

instance : Inhabited Piece := ⟨{}⟩

structure Bone where
  m_index : Nat := 0
  m_name : String := ""
  m_parent : Int := -1
deriving Repr, DecidableEq

structure Part where
  m_name : String := ""
  m_locatorCount : Nat := 0
  m_locatorId : Nat := 0
  m_pieceCount : Nat := 0
  m_pieceId : Nat := 0
deriving Repr, DecidableEq

structure Locator where
  m_index : Nat := 0
  m_name : String := ""
  m_hookup : String := ""
deriving Repr, DecidableEq

structure Material where
  m_path : String := ""
  m_textures : List String := []
  m_alias : String := ""
deriving Repr, DecidableEq

instance : Inhabited Material := ⟨{}⟩

structure Look where
  m_name : String := ""
  m_materials : List Material := []
deriving Repr, DecidableEq

instance : Inhabited Look := ⟨{}⟩

inductive AttribType where
  | INT
deriving Repr, DecidableEq

/-- Variant::Attribute.  The value none for m_type models the
default-constructed (not yet assigned) type of the C++ attribute, which
the encoder renders as UNKNOWN. -/
structure Attribute where
  m_name : String := ""
  m_type : Option AttribType := none
  m_intValue : Int := 0
deriving Repr, DecidableEq

instance : Inhabited Attribute := ⟨{}⟩

structure VariantPart where
  m_partIndex : Nat := 0
  m_attributes : List Attribute := []
deriving Repr, DecidableEq

instance : Inhabited VariantPart := ⟨{}⟩

structure Variant where
  m_name : String := ""
  m_parts : List VariantPart := []
deriving Repr, DecidableEq

instance : Inhabited Variant := ⟨{}⟩

/-- The Model aggregate.  Prefab and collision are external collaborators;
they are carried as opaque handles (Nat) inside Option. -/
structure Model where
  m_bones : List Bone := []
  m_locators : List Locator := []
  m_parts : List Part := []
  m_pieces : List Piece := []
  m_looks : List Look := []
  m_variants : List Variant := []
  m_vertCount : Nat := 0
  m_triangleCount : Nat := 0
  m_skinVertCount : Nat := 0
  m_materialCount : Nat := 0
  m_loaded : Bool := false
  m_filePath : String := ""
  m_fileName : String := ""
  m_directory : String := ""
  m_prefab : Option Nat := none
  m_collision : Option Nat := none
deriving Repr, DecidableEq

/-- Model::destroy (model.cpp lines 90-107): clears the six containers,
zeroes the four counts, clears the loaded flag and the path and name
strings.  The directory, prefab and collision fields are not touched. -/
def Model.destroy (m : Model) : Model :=
  { m with
    m_bones := [], m_locators := [], m_parts := [], m_pieces := [],
    m_looks := [], m_variants := [],
    m_vertCount := 0, m_triangleCount := 0, m_skinVertCount := 0, m_materialCount := 0,
    m_loaded := false, m_filePath := "", m_fileName := "" }

/-- pmg bone record: the fields model.cpp copies that the claims can
observe (transform matrices are copied verbatim and never inspected, they
are omitted from the record model). -/
structure PmgBoneRec where
  m_name : String
  m_parent : Int
deriving Repr, DecidableEq, Inhabited

structure PmgPartRec where
  m_name : String
  m_locator_count : Nat
  m_locators_idx : Nat
  m_piece_count : Nat
  m_pieces_idx : Nat
deriving Repr, DecidableEq, Inhabited

/-- pmg locator record; m_name_block_offset is the hookup string pool
offset (-1 = no hookup).  Transform fields are copied verbatim and never
inspected, so they are omitted. -/
structure PmgLocatorRec where
  m_name : String
  m_name_block_offset : Int
deriving Repr, DecidableEq, Inhabited

/-- pmg_0x13 piece record, fields as consumed by Model::loadModel0x13.
Counts are Nat (the code uses them as loop bounds), stream offsets are
Int with the sentinel -1 meaning the stream is absent. -/
structure Pmg13Piece where
  m_uv_mask : Nat
  m_uv_channels : Nat
  m_bone_count : Nat
  m_material : Int
  m_verts : Nat
  m_edges : Nat
  m_vert_position_offset : Int
  m_vert_normal_offset : Int
  m_vert_tangent_offset : Int
  m_vert_uv_offset : Int
  m_vert_rgba_offset : Int
  m_vert_rgba2_offset : Int
  m_anim_bind_offset : Int
  m_anim_bind_bones_offset : Int
  m_anim_bind_bones_weight_offset : Int
  m_triangle_offset : Int
deriving Repr, DecidableEq, Inhabited

/-- pmg_0x14 piece record, fields as consumed by Model::loadModel0x14. -/
structure Pmg14Piece where
  m_texcoord_mask : Nat
  m_texcoord_width : Nat
  m_material : Int
  m_verts : Nat
  m_edges : Nat
  m_vert_position_offset : Int
  m_vert_normal_offset : Int
  m_vert_tangent_offset : Int
  m_vert_texcoord_offset : Int
  m_vert_color_offset : Int
  m_vert_color2_offset : Int
  m_vert_bone_index_offset : Int
  m_vert_bone_weight_offset : Int
  m_index_offset : Int
deriving Repr, DecidableEq, Inhabited

/-- Static pool contribution of a 0x13 piece: byte sizes of the present
position (sizeof float3 = 12), normal (12) and tangent (16) streams. -/
def poolStatic13Base (p : Pmg13Piece) : Nat :=
  (if p.m_vert_position_offset ≠ -1 then 12 else 0) +
  (if p.m_vert_normal_offset ≠ -1 then 12 else 0) +
  (if p.m_vert_tangent_offset ≠ -1 then 16 else 0)

/-- Dynamic pool contribution of a 0x13 piece: texcoords (8 bytes per
channel) and the two one-word color streams. -/
def poolDynamic13Base (p : Pmg13Piece) : Nat :=
  (if p.m_vert_uv_offset ≠ -1 then 8 * p.m_uv_channels else 0) +
  (if p.m_vert_rgba_offset ≠ -1 then 4 else 0) +
  (if p.m_vert_rgba2_offset ≠ -1 then 4 else 0)

/-- poolSizeStatic after the bone_count == 0 merge of loadModel0x13. -/
def poolStatic13 (p : Pmg13Piece) : Nat :=
  if p.m_bone_count = 0 then poolStatic13Base p + poolDynamic13Base p else poolStatic13Base p

/-- poolSizeDynamic after the bone_count == 0 merge of loadModel0x13. -/
def poolDynamic13 (p : Pmg13Piece) : Nat :=
  if p.m_bone_count = 0 then poolStatic13Base p + poolDynamic13Base p else poolDynamic13Base p

/-- Sum of the byte sizes of every present vertex stream of a 0x13 piece. -/
def totalPool13 (p : Pmg13Piece) : Nat := poolStatic13Base p + poolDynamic13Base p

/-- Stream count of a 0x13 piece as accumulated by loadModel0x13. -/
def streamCount13 (p : Pmg13Piece) : Nat :=
  (if p.m_vert_position_offset ≠ -1 then 1 else 0) +
  (if p.m_vert_normal_offset ≠ -1 then 1 else 0) +
  (if p.m_vert_tangent_offset ≠ -1 then 1 else 0) +
  (if p.m_vert_uv_offset ≠ -1 then p.m_uv_channels else 0) +
  (if p.m_vert_rgba_offset ≠ -1 then 1 else 0) +
  (if p.m_vert_rgba2_offset ≠ -1 then 1 else 0)

/-- Version-1 skinning, bone index table read: for the bind-table entry
animBind, slot k holds the int8 at
anim_bind_bones_offset + animBind * bone_count + k for
k < min(bone_count, BONE_COUNT), and -1 above. -/
def skinIndices13 (buf : Buf) (p : Pmg13Piece) (animBind : Nat) : List Int :=
  (List.range BONE_COUNT).map fun k =>
    if k < min p.m_bone_count BONE_COUNT then
      readI8 buf (p.m_anim_bind_bones_offset.toNat + animBind * p.m_bone_count + k)
    else -1

/-- Version-1 skinning, bone weight table read (parallel table). -/
def skinWeights13 (buf : Buf) (p : Pmg13Piece) (animBind : Nat) : List Nat :=
  (List.range BONE_COUNT).map fun k =>
    if k < min p.m_bone_count BONE_COUNT then
      readU8 buf (p.m_anim_bind_bones_weight_offset.toNat + animBind * p.m_bone_count + k)
    else 0

/-- Vertex decode of Model::loadModel0x13 (model.cpp lines 302-359).
Static streams advance by poolSizeStatic per vertex, dynamic streams by
poolSizeDynamic; each field is read only when its stream is present. -/
def decodeVertex13 (buf : Buf) (p : Pmg13Piece) (j : Nat) : Vertex :=
  { m_position :=
      if p.m_vert_position_offset ≠ -1 then
        readF3 buf (p.m_vert_position_offset.toNat + poolStatic13 p * j)
      else (0, 0, 0)
    m_normal :=
      if p.m_vert_normal_offset ≠ -1 then
        readF3 buf (p.m_vert_normal_offset.toNat + poolStatic13 p * j)
      else (0, 0, 0)
    m_tangent :=
      if p.m_vert_tangent_offset ≠ -1 then
        readTangent buf (p.m_vert_tangent_offset.toNat + poolStatic13 p * j)
      else [0, 0, 0, 0]
    m_texcoords :=
      if p.m_vert_uv_offset ≠ -1 then
        (List.range p.m_uv_channels).map fun k =>
          readF2 buf (p.m_vert_uv_offset.toNat + poolDynamic13 p * j + 8 * k)
      else []
    m_color :=
      if p.m_vert_rgba_offset ≠ -1 then
        readColor buf (p.m_vert_rgba_offset.toNat + poolDynamic13 p * j)
      else [0, 0, 0, 0]
    m_color2 :=
      if p.m_vert_rgba2_offset ≠ -1 then
        readColor buf (p.m_vert_rgba2_offset.toNat + poolDynamic13 p * j)
      else [0, 0, 0, 0]
    m_boneIndex :=
      if p.m_anim_bind_offset ≠ -1 then
        skinIndices13 buf p (readU16 buf (p.m_anim_bind_offset.toNat + 2 * j))
      else List.replicate BONE_COUNT (-1)
    m_boneWeight :=
      if p.m_anim_bind_offset ≠ -1 then
        skinWeights13 buf p (readU16 buf (p.m_anim_bind_offset.toNat + 2 * j))
      else List.replicate BONE_COUNT 0 }

/-- Piece decode of Model::loadModel0x13 (model.cpp lines 231-368). -/
def decodePiece13 (buf : Buf) (i : Nat) (p : Pmg13Piece) : Piece :=
  { m_index := i
    m_texcoordMask := p.m_uv_mask
    m_texcoordCount := p.m_uv_channels
    m_bones := p.m_bone_count
    m_material := p.m_material
    m_streamCount := streamCount13 p
    m_position := p.m_vert_position_offset != -1
    m_normal := p.m_vert_normal_offset != -1
    m_tangent := p.m_vert_tangent_offset != -1
    m_texcoord := p.m_vert_uv_offset != -1
    m_color := p.m_vert_rgba_offset != -1
    m_color2 := p.m_vert_rgba2_offset != -1
    m_vertices := (List.range p.m_verts).map (decodeVertex13 buf p)
    m_triangles := (List.range (p.m_edges / 3)).map fun j =>
      readTri buf (p.m_triangle_offset.toNat + 6 * j) }

/-- Single per-vertex pool size of a 0x14 piece: sum of the byte sizes of
every present stream (the bone index/weight pair counts 2 words). -/
def poolSize14 (p : Pmg14Piece) : Nat :=
  (if p.m_vert_position_offset ≠ -1 then 12 else 0) +
  (if p.m_vert_normal_offset ≠ -1 then 12 else 0) +
  (if p.m_vert_tangent_offset ≠ -1 then 16 else 0) +
  (if p.m_vert_texcoord_offset ≠ -1 then 8 * p.m_texcoord_width else 0) +
  (if p.m_vert_color_offset ≠ -1 then 4 else 0) +
  (if p.m_vert_color2_offset ≠ -1 then 4 else 0) +
  (if p.m_vert_bone_index_offset ≠ -1 then 8 else 0)

/-- Stream count of a 0x14 piece as accumulated by loadModel0x14. -/
def streamCount14 (p : Pmg14Piece) : Nat :=
  (if p.m_vert_position_offset ≠ -1 then 1 else 0) +
  (if p.m_vert_normal_offset ≠ -1 then 1 else 0) +
  (if p.m_vert_tangent_offset ≠ -1 then 1 else 0) +
  (if p.m_vert_texcoord_offset ≠ -1 then p.m_texcoord_width else 0) +
  (if p.m_vert_color_offset ≠ -1 then 1 else 0) +
  (if p.m_vert_color2_offset ≠ -1 then 1 else 0)

/-- Vertex decode of Model::loadModel0x14 (model.cpp lines 500-559).
Every stream is read at its base offset plus poolSize * j.  Note: the
code reads the second color from m_vert_color_offset (line 537), not from
m_vert_color2_offset; this embedding reproduces that read faithfully. -/
def decodeVertex14 (buf : Buf) (p : Pmg14Piece) (j : Nat) : Vertex :=
  { m_position :=
      if p.m_vert_position_offset ≠ -1 then
        readF3 buf (p.m_vert_position_offset.toNat + poolSize14 p * j)
      else (0, 0, 0)
    m_normal :=
      if p.m_vert_normal_offset ≠ -1 then
        readF3 buf (p.m_vert_normal_offset.toNat + poolSize14 p * j)
      else (0, 0, 0)
    m_tangent :=
      if p.m_vert_tangent_offset ≠ -1 then
        readTangent buf (p.m_vert_tangent_offset.toNat + poolSize14 p * j)
      else [0, 0, 0, 0]
    m_texcoords :=
      if p.m_vert_texcoord_offset ≠ -1 then
        (List.range p.m_texcoord_width).map fun k =>
          readF2 buf (p.m_vert_texcoord_offset.toNat + poolSize14 p * j + 8 * k)
      else []
    m_color :=
      if p.m_vert_color_offset ≠ -1 then
        readColor buf (p.m_vert_color_offset.toNat + poolSize14 p * j)
      else [0, 0, 0, 0]
    m_color2 :=
      if p.m_vert_color2_offset ≠ -1 then
        readColor buf (p.m_vert_color_offset.toNat + poolSize14 p * j)
      else [0, 0, 0, 0]
    m_boneIndex :=
      if p.m_vert_bone_index_offset ≠ -1 ∧ p.m_vert_bone_weight_offset ≠ -1 then
        (List.range BONE_COUNT).map fun b =>
          if b < 4 then
            toI8 ((readU32 buf (p.m_vert_bone_index_offset.toNat + poolSize14 p * j)
              >>> (8 * b)) % 256)
          else -1
      else List.replicate BONE_COUNT (-1)
    m_boneWeight :=
      if p.m_vert_bone_index_offset ≠ -1 ∧ p.m_vert_bone_weight_offset ≠ -1 then
        (List.range BONE_COUNT).map fun b =>
          if b < 4 then
            (readU32 buf (p.m_vert_bone_weight_offset.toNat + poolSize14 p * j)
              >>> (8 * b)) % 256
          else 0
      else List.replicate BONE_COUNT 0 }

/-- Piece decode of Model::loadModel0x14 (model.cpp lines 440-568); the
bone-influence width of every piece is the header field weight_width. -/
def decodePiece14 (buf : Buf) (weightWidth : Nat) (i : Nat) (p : Pmg14Piece) : Piece :=
  { m_index := i
    m_texcoordMask := p.m_texcoord_mask
    m_texcoordCount := p.m_texcoord_width
    m_bones := weightWidth
    m_material := p.m_material
    m_streamCount := streamCount14 p
    m_position := p.m_vert_position_offset != -1
    m_normal := p.m_vert_normal_offset != -1
    m_tangent := p.m_vert_tangent_offset != -1
    m_texcoord := p.m_vert_texcoord_offset != -1
    m_color := p.m_vert_color_offset != -1
    m_color2 := p.m_vert_color2_offset != -1
    m_vertices := (List.range p.m_verts).map (decodeVertex14 buf p)
    m_triangles := (List.range (p.m_edges / 3)).map fun j =>
      readTri buf (p.m_index_offset.toNat + 6 * j) }

/-- Record view of a pmg 0x13 geometry buffer: the fixed-layout header,
bone, part, locator and piece records that the code reads through pointer
casts (record layouts live in pmg_0x13.h, outside src/), paired with the
raw buffer used for vertex, skin, triangle and string pool data.  The
list lengths are the header counts; pool models the C-string read at a
given offset inside the locator name pool. -/
structure Pmg13Recs where
  bones : List PmgBoneRec
  parts : List PmgPartRec
  locators : List PmgLocatorRec
  pieces : List Pmg13Piece
  m_locators_name_size : Nat
  pool : Nat → String
deriving Inhabited

/-- Record view of a pmg 0x14 geometry buffer (layouts in pmg_0x14.h,
outside src/); m_weight_width is the header skinning width field. -/
structure Pmg14Recs where
  bones : List PmgBoneRec
  parts : List PmgPartRec
  locators : List PmgLocatorRec
  pieces : List Pmg14Piece
  m_weight_width : Nat
  m_string_pool_size : Nat
  pool : Nat → String
deriving Inhabited

def decodeBone (i : Nat) (b : PmgBoneRec) : Bone :=
  { m_index := i, m_name := b.m_name, m_parent := b.m_parent }

def decodePart (p : PmgPartRec) : Part :=
  { m_name := p.m_name
    m_locatorCount := p.m_locator_count
    m_locatorId := p.m_locators_idx
    m_pieceCount := p.m_piece_count
    m_pieceId := p.m_pieces_idx }

/-- Locator decode shared by both versions: hookup resolved from the
string pool when the offset is not the sentinel -1, truncated to the
remaining pool size. -/
def decodeLocator (poolSize : Nat) (pool : Nat → String) (i : Nat) (l : PmgLocatorRec) : Locator :=
  { m_index := i
    m_name := l.m_name
    m_hookup :=
      if l.m_name_block_offset ≠ -1 then
        (pool l.m_name_block_offset.toNat).take (poolSize - l.m_name_block_offset.toNat)
      else "" }

/-- The header signature check of loadModel0x13 (model.cpp lines 169-172):
version byte 0x13 followed by the characters g, m, P. -/
def sig13Ok (b : Buf) : Prop :=
  readU8 b 0 = 0x13 ∧ readU8 b 3 = 80 ∧ readU8 b 2 = 109 ∧ readU8 b 1 = 103

instance (b : Buf) : Decidable (sig13Ok b) := by unfold sig13Ok; infer_instance

/-- The header signature check of loadModel0x14 (model.cpp lines 377-380). -/
def sig14Ok (b : Buf) : Prop :=
  readU8 b 0 = 0x14 ∧ readU8 b 3 = 80 ∧ readU8 b 2 = 109 ∧ readU8 b 1 = 103

instance (b : Buf) : Decidable (sig14Ok b) := by unfold sig14Ok; infer_instance

/-- Model::loadModel0x13 (model.cpp lines 164-370): checks the header
signature, then populates bones, parts, locators and pieces and
accumulates the three aggregate counters. -/
def Model.loadModel0x13 (m : Model) (buf : Buf) (g : Pmg13Recs) : Model × Bool :=
  if sig13Ok buf then
    ({ m with
       m_bones := (List.range g.bones.length).map fun i => decodeBone i (g.bones.getD i default)
       m_parts := g.parts.map decodePart
       m_locators := (List.range g.locators.length).map fun i =>
         decodeLocator g.m_locators_name_size g.pool i (g.locators.getD i default)
       m_pieces := (List.range g.pieces.length).map fun i =>
         decodePiece13 buf i (g.pieces.getD i default)
       m_vertCount := m.m_vertCount + (g.pieces.map (fun p => p.m_verts)).sum
       m_triangleCount := m.m_triangleCount + (g.pieces.map (fun p => p.m_edges / 3)).sum
       m_skinVertCount := m.m_skinVertCount +
         (g.pieces.map (fun p => if 0 < p.m_bone_count then p.m_verts else 0)).sum }, true)
  else (m, false)

/-- Model::loadModel0x14 (model.cpp lines 372-570): as for 0x13, but each
piece takes the single header weight_width as its bone-influence width. -/
def Model.loadModel0x14 (m : Model) (buf : Buf) (g : Pmg14Recs) : Model × Bool :=
  if sig14Ok buf then
    ({ m with
       m_bones := (List.range g.bones.length).map fun i => decodeBone i (g.bones.getD i default)
       m_parts := g.parts.map decodePart
       m_locators := (List.range g.locators.length).map fun i =>
         decodeLocator g.m_string_pool_size g.pool i (g.locators.getD i default)
       m_pieces := (List.range g.pieces.length).map fun i =>
         decodePiece14 buf g.m_weight_width i (g.pieces.getD i default)
       m_vertCount := m.m_vertCount + (g.pieces.map (fun p => p.m_verts)).sum
       m_triangleCount := m.m_triangleCount + (g.pieces.map (fun p => p.m_edges / 3)).sum
       m_skinVertCount := m.m_skinVertCount +
         (g.pieces.map (fun p => if 0 < g.m_weight_width then p.m_verts else 0)).sum }, true)
  else (m, false)

/-- MAKEFOURCC(0x13, g, m, P): the little-endian 32-bit tag accepted by
the version dispatch for schema version 1. -/
def FOURCC13 : Nat := 0x13 + 256 * 103 + 65536 * 109 + 16777216 * 80

/-- MAKEFOURCC(0x14, g, m, P): the tag accepted for schema version 2. -/
def FOURCC14 : Nat := 0x14 + 256 * 103 + 65536 * 109 + 16777216 * 80

/-- A geometry (.pmg) file as seen by Model::loadModel: the raw buffer
plus the record views used after the dispatch on the leading tag. -/
structure GeomFile where
  buf : Buf
  recs13 : Pmg13Recs
  recs14 : Pmg14Recs

/-- Model::loadModel (model.cpp lines 136-162): none models a failed
file open; otherwise the first 32-bit word selects the decoder version,
any other tag fails the load with the model untouched. -/
def Model.loadModel (m : Model) (gf : Option GeomFile) : Model × Bool :=
  match gf with
  | none => (m, false)
  | some g =>
    if readU32 g.buf 0 = FOURCC13 then m.loadModel0x13 g.buf g.recs13
    else if readU32 g.buf 0 = FOURCC14 then m.loadModel0x14 g.buf g.recs14
    else (m, false)

/-- pmd attribute definition record (name token, type code, value pool
offset), as consumed by Model::loadDescriptor. -/
structure AttribDef where
  m_name : String
  m_type : Int
  m_offset : Nat
deriving Repr, DecidableEq, Inhabited

/-- Modelled from the spec: pmd_header_t::SUPPORTED_VERSION, the single
supported descriptor version; the constant lives in a header outside
src/, its concrete value is irrelevant to the claims. -/
def PMD_SUPPORTED_VERSION : Nat := 4

/-- Record view of a descriptor (.pmd) buffer: header counts, the token
tables (already resolved to strings, as token_to_string is external), the
material path table (the two-level offset plus C-string read per
look/slot pair), the per-part attribute link records, the attribute
definition table, and the raw buffer holding the attribute value pool. -/
structure PmdFile where
  m_version : Nat
  m_material_count : Nat
  m_look_count : Nat
  m_variant_count : Nat
  m_part_count : Nat
  lookName : Nat → String
  variantName : Nat → String
  matPath : Nat → Nat → String
  attribLinkFrom : Nat → Int
  attribLinkTo : Nat → Int
  attribDef : Int → AttribDef
  m_attribs_value_offset : Nat
  m_attribs_values_size : Nat
  buf : Buf

/-- Path resolution for materials (model.cpp line 610): absolute when the
first character is the separator, otherwise relative to the directory. -/
def resolveMatPath (dir path : String) : String :=
  if path.startsWith "/" then path else dir ++ "/" ++ path

/-- sprintf %04i for the alias: decimal, zero padded to width 4. -/
def pad4 (j : Nat) : String :=
  let s := toString j
  if s.length < 4 then String.mk (List.replicate (4 - s.length) '0') ++ s else s

/-- substr(0, size - 5) with size_t semantics: when the string is shorter
than 5 the subtraction wraps and substr clamps to the whole string. -/
def dropTextureSuffix (s : String) : String :=
  if s.length < 5 then s else s.take (s.length - 5)

/-- rfind of the separator followed by substr(lastSlash + 1): the
component after the last slash (the string itself when there is none). -/
def afterLastSlash (s : String) : String := (s.splitOn "/").getLastD s

/-- Alias generated for slot j of the first look (model.cpp lines
611-627): fromtexture filename when the material has textures, a
positional fallback otherwise. -/
def genAlias (j : Nat) (textures : List String) : String :=
  match textures with
  | [] => "mat_" ++ pad4 j
  | t :: _ => "mat_" ++ pad4 j ++ "_" ++ afterLastSlash (dropTextureSuffix t)

/-- Look 0 of the descriptor: materials loaded from their resolved paths
(matLoad models the external Material::load texture result) and given
generated aliases. -/
def buildLook0 (dir : String) (matLoad : String → List String) (d : PmdFile) : Look :=
  { m_name := d.lookName 0
    m_materials := (List.range d.m_material_count).map fun j =>
      let path := resolveMatPath dir (d.matPath 0 j)
      let texs := matLoad path
      { m_path := path, m_textures := texs, m_alias := genAlias j texs } }

/-- Look i > 0 of the descriptor: materials loaded from their own paths,
alias copied from look 0 at the same slot (model.cpp line 631). -/
def buildLookI (dir : String) (matLoad : String → List String) (d : PmdFile)
    (look0 : Look) (i : Nat) : Look :=
  { m_name := d.lookName i
    m_materials := (List.range d.m_material_count).map fun j =>
      let path := resolveMatPath dir (d.matPath i j)
      { m_path := path, m_textures := matLoad path,
        m_alias := (look0.m_materials.getD j default).m_alias } }

/-- Attribute list for variant i, part j (model.cpp lines 649-666): one
attribute is appended for every definition in the [from, to) link range;
a definition of type 0 is read from the value pool at
attribs_value_offset + definition offset + i * attribs_values_size, any
other type code only logs a warning and the attribute keeps the
default-constructed type and value. -/
def buildAttribs (d : PmdFile) (i j : Nat) : List Attribute :=
  (List.range (d.attribLinkTo j - d.attribLinkFrom j).toNat).map fun (idx : Nat) =>
    let ad := d.attribDef (d.attribLinkFrom j + (idx : Int))
    if ad.m_type = 0 then
      { m_name := ad.m_name, m_type := some AttribType.INT,
        m_intValue := readI32 d.buf
          (d.m_attribs_value_offset + ad.m_offset + i * d.m_attribs_values_size) }
    else
      { m_name := ad.m_name, m_type := none, m_intValue := 0 }

def buildVariant (d : PmdFile) (i : Nat) : Variant :=
  { m_name := d.variantName i
    m_parts := (List.range d.m_part_count).map fun j =>
      { m_partIndex := j, m_attributes := buildAttribs d i j } }

/-- Model::loadDescriptor (model.cpp lines 572-670): none models a failed
file open; a version mismatch fails with the model untouched; otherwise
materialCount, looks and variants are populated. -/
def Model.loadDescriptor (m : Model) (matLoad : String → List String)
    (dOpt : Option PmdFile) : Model × Bool :=
  match dOpt with
  | none => (m, false)
  | some d =>
    if d.m_version ≠ PMD_SUPPORTED_VERSION then (m, false)
    else
      let look0 := buildLook0 m.m_directory matLoad d
      ({ m with
         m_materialCount := d.m_material_count
         m_looks := (List.range d.m_look_count).map fun i =>
           if i = 0 then look0 else buildLookI m.m_directory matLoad d look0 i
         m_variants := (List.range d.m_variant_count).map fun i => buildVariant d i }, true)

/-- Modelled from the spec: the helper directory() (defined outside
src/) returns the path up to the last separator. -/
def directoryOf (s : String) : String :=
  String.intercalate "/" (s.splitOn "/").dropLast

/-- The external collaborators of Model::load: the virtual filesystem
(open results for the descriptor and geometry files, existence of the
optional companions) and the outcome of the external prefab and collision
loaders, with fresh handles for newly constructed objects. -/
structure LoadEnv where
  matLoad : String → List String
  pmd : Option PmdFile
  geom : Option GeomFile
  ppdExists : Bool
  prefabLoadOk : Bool
  newPrefab : Nat
  pmcExists : Bool
  collisionLoadOk : Bool
  newCollision : Nat

/-- Model::loadCollision (model.cpp lines 672-680): when the .pmc
companion exists a new collision object is installed (even when its own
load fails); the returned flag is the external load result. -/
def Model.loadCollision (m : Model) (env : LoadEnv) : Model × Bool :=
  if env.pmcExists then ({ m with m_collision := some env.newCollision }, env.collisionLoadOk)
  else (m, false)

/-- The load sequence of Model::load after the path fields are recorded
(model.cpp lines 118-133): descriptor, then geometry; on success
optionally load prefab (reset on prefab load failure) and collision, and
set the loaded flag. -/
def Model.loadSteps (m2 : Model) (env : LoadEnv) : Model × Bool :=
  let r1 := m2.loadDescriptor env.matLoad env.pmd
  if r1.2 then
    let r2 := r1.1.loadModel env.geom
    if r2.2 then
      let m3 :=
        if env.ppdExists then
          if env.prefabLoadOk then { r2.1 with m_prefab := some env.newPrefab }
          else { r2.1 with m_prefab := none }
        else r2.1
      let r3 := m3.loadCollision env
      ({ r3.1 with m_loaded := true }, true)
    else (r2.1, false)
  else (r1.1, false)

/-- Model::load (model.cpp lines 109-134): destroy when already loaded,
record path/directory/name, then run the load sequence. -/
def Model.load (m0 : Model) (env : LoadEnv) (filePath : String) : Model × Bool :=
  let m1 := if m0.m_loaded then m0.destroy else m0
  let dir := directoryOf filePath
  Model.loadSteps
    { m1 with m_filePath := filePath, m_directory := dir,
              m_fileName := filePath.drop (dir.length + 1) } env

/-- A concrete 0x14 buffer holding just a valid signature. -/
def exBuf14 : Buf := fun i => [0x14, 103, 109, 80].getD i 0

/-- A concrete minimal 0x14 piece with no streams and three vertices. -/
def exPiece14Bare : Pmg14Piece :=
  { m_texcoord_mask := 0, m_texcoord_width := 0, m_material := 0,
    m_verts := 3, m_edges := 0, m_vert_position_offset := -1,
    m_vert_normal_offset := -1, m_vert_tangent_offset := -1,
    m_vert_texcoord_offset := -1, m_vert_color_offset := -1,
    m_vert_color2_offset := -1, m_vert_bone_index_offset := -1,
    m_vert_bone_weight_offset := -1, m_index_offset := 0 }

/-- A concrete 0x14 record view: one bare piece, weight width 2. -/
def exRecs14 : Pmg14Recs :=
  { bones := [], parts := [], locators := [], pieces := [exPiece14Bare],
    m_weight_width := 2, m_string_pool_size := 0, pool := fun _ => "" }

/-- A concrete 0x13 buffer holding just a valid signature. -/
def exBuf13 : Buf := fun i => [0x13, 103, 109, 80].getD i 0

/-- A concrete minimal 0x13 piece: no streams, 4 vertices, 7 edges. -/
def exPiece13Bare : Pmg13Piece :=
  { m_uv_mask := 0, m_uv_channels := 0, m_bone_count := 0, m_material := 0,
    m_verts := 4, m_edges := 7, m_vert_position_offset := -1,
    m_vert_normal_offset := -1, m_vert_tangent_offset := -1,
    m_vert_uv_offset := -1, m_vert_rgba_offset := -1, m_vert_rgba2_offset := -1,
    m_anim_bind_offset := -1, m_anim_bind_bones_offset := 0,
    m_anim_bind_bones_weight_offset := 0, m_triangle_offset := 0 }

/-- A concrete 0x13 record view holding one bare piece. -/
def exRecs13 : Pmg13Recs :=
  { bones := [], parts := [], locators := [], pieces := [exPiece13Bare],
    m_locators_name_size := 0, pool := fun _ => "" }

/-- A concrete model state carrying a previously loaded prefab and
collision handle. -/
def exModel9 : Model :=
  { m_directory := "d", m_prefab := some 7, m_collision := some 3, m_loaded := true }

/-- A concrete environment whose filesystem has neither companion file. -/
def exEnv9 : LoadEnv :=
  { matLoad := fun _ => [], pmd := none, geom := none, ppdExists := false,
    prefabLoadOk := false, newPrefab := 0, pmcExists := false,
    collisionLoadOk := false, newCollision := 0 }

/-- A concrete descriptor with two looks and one material slot whose
per-look material paths differ. -/
def exPmdC5 : PmdFile :=
  { m_version := 4, m_material_count := 1, m_look_count := 2, m_variant_count := 0,
    m_part_count := 0, lookName := fun i => if i = 0 then "default" else "second",
    variantName := fun _ => "",
    matPath := fun i _ => if i = 0 then "/mat/a.mat" else "/mat/b.mat",
    attribLinkFrom := fun _ => 0, attribLinkTo := fun _ => 0,
    attribDef := fun _ => default, m_attribs_value_offset := 0,
    m_attribs_values_size := 0, buf := fun _ => 0 }

/-- A concrete descriptor whose single attribute definition has the
unknown type code 7. -/
def exPmdC2 : PmdFile :=
  { m_version := 4, m_material_count := 0, m_look_count := 0, m_variant_count := 1,
    m_part_count := 1, lookName := fun _ => "", variantName := fun _ => "v",
    matPath := fun _ _ => "", attribLinkFrom := fun _ => 0, attribLinkTo := fun _ => 1,
    attribDef := fun _ => { m_name := "visible", m_type := 7, m_offset := 0 },
    m_attribs_value_offset := 0, m_attribs_values_size := 0, buf := fun _ => 0 }

/-- A concrete valid descriptor with one look, so that the descriptor
stage populates the looks container. -/
def exPmdC1 : PmdFile :=
  { m_version := 4, m_material_count := 0, m_look_count := 1, m_variant_count := 0,
    m_part_count := 0, lookName := fun _ => "l", variantName := fun _ => "",
    matPath := fun _ _ => "", attribLinkFrom := fun _ => 0, attribLinkTo := fun _ => 0,
    attribDef := fun _ => default, m_attribs_value_offset := 0,
    m_attribs_values_size := 0, buf := fun _ => 0 }

/-- A concrete geometry file whose buffer is all zero: the leading tag 0
matches neither supported fourcc. -/
def exGeomBad : GeomFile :=
  { buf := fun _ => 0, recs13 := default, recs14 := default }

/-- A concrete environment combining the valid descriptor with the
bad-tag geometry file. -/
def exEnvC1 : LoadEnv :=
  { matLoad := fun _ => [], pmd := some exPmdC1, geom := some exGeomBad,
    ppdExists := false, prefabLoadOk := false, newPrefab := 0, pmcExists := false,
    collisionLoadOk := false, newCollision := 0 }

/-- A buffer whose bytes are 10 below offset 104 and 20 from there on:
the first color stream (at 100) and the second (at 104) hold different
bytes. -/
def exBufC3 : Buf := fun i => if i < 104 then 10 else 20

/-- A concrete 0x14 piece with both color streams present (first at 100,
second at 104) and one vertex. -/
def exPieceC3 : Pmg14Piece :=
  { m_texcoord_mask := 0, m_texcoord_width := 0, m_material := 0, m_verts := 1,
    m_edges := 0, m_vert_position_offset := -1, m_vert_normal_offset := -1,
    m_vert_tangent_offset := -1, m_vert_texcoord_offset := -1,
    m_vert_color_offset := 100, m_vert_color2_offset := 104,
    m_vert_bone_index_offset := -1, m_vert_bone_weight_offset := -1,
    m_index_offset := 0 }

/-- A buffer whose byte at offset i is i mod 256: distinct 32-bit words
at distinct small offsets. -/
def exBufC4 : Buf := fun i => i

/-- A concrete skinned (bone width 1) 0x13 piece with a position stream
(static, 12 bytes) and a color stream (dynamic, 4 bytes): the static and
dynamic strides differ (12 and 4), against the claimed single 16. -/
def exPieceC4 : Pmg13Piece :=
  { m_uv_mask := 0, m_uv_channels := 0, m_bone_count := 1, m_material := 0,
    m_verts := 2, m_edges := 0, m_vert_position_offset := 0,
    m_vert_normal_offset := -1, m_vert_tangent_offset := -1, m_vert_uv_offset := -1,
    m_vert_rgba_offset := 100, m_vert_rgba2_offset := -1, m_anim_bind_offset := -1,
    m_anim_bind_bones_offset := 0, m_anim_bind_bones_weight_offset := 0,
    m_triangle_offset := 0 }

/-- A concrete 0x13 piece with all streams present and bone count 0, so
that its static and dynamic strides both equal the total sum 48. -/
def exPieceC4w : Pmg13Piece :=
  { m_uv_mask := 0, m_uv_channels := 1, m_bone_count := 0, m_material := 0,
    m_verts := 2, m_edges := 0, m_vert_position_offset := 0,
    m_vert_normal_offset := 12, m_vert_tangent_offset := 24, m_vert_uv_offset := 40,
    m_vert_rgba_offset := 48, m_vert_rgba2_offset := 52, m_anim_bind_offset := -1,
    m_anim_bind_bones_offset := 0, m_anim_bind_bones_weight_offset := 0,
    m_triangle_offset := 0 }

/-- The companion-artifact dispatch of Model::saveToMidFormat
(model.cpp lines 1200-1201): the collision (.pic) and prefab (.pip)
artifacts are attempted exactly when the corresponding reference is
present; the save itself is the external collaborator. -/
def Model.midFormatCompanionAttempts (m : Model) : Bool × Bool :=
  (m.m_collision.isSome, m.m_prefab.isSome)

/-! Helper lemmas about indexing the range-map lists the decoders build. -/

theorem getD_range_map {α : Type _} (f : Nat → α) (d : α) {n i : Nat} (h : i < n) :
    ((List.range n).map f).getD i d = f i := by
  rw [List.getD_eq_getElem _ _ (by simpa using h)]
  simp

theorem sum_map_zero {α : Type _} (l : List α) : (l.map fun _ => (0 : Nat)).sum = 0 := by
  induction l with
  | nil => rfl
  | cons a l ih => simp [ih]

/-- C6: in the version-2 skin decode the 32-bit index and weight words are
split into four 8-bit fields, least-significant byte to bone slot 0 (so
the index word 0x04030201 yields slots [1, 2, 3, 4]), and every slot from
4 up to BONE_COUNT - 1 is set to (-1, 0). -/
theorem c6_skin_v2_packing (buf : Buf) (p : Pmg14Piece) (j : Nat)
    (hb : p.m_vert_bone_index_offset ≠ -1) (hw : p.m_vert_bone_weight_offset ≠ -1) :
    (∀ b, b < 4 →
      (decodeVertex14 buf p j).m_boneIndex.getD b 0
        = toI8 ((readU32 buf (p.m_vert_bone_index_offset.toNat + poolSize14 p * j)
            >>> (8 * b)) % 256) ∧
      (decodeVertex14 buf p j).m_boneWeight.getD b 1
        = (readU32 buf (p.m_vert_bone_weight_offset.toNat + poolSize14 p * j)
            >>> (8 * b)) % 256) ∧
    (∀ b, 4 ≤ b → b < BONE_COUNT →
      (decodeVertex14 buf p j).m_boneIndex.getD b 0 = -1 ∧
      (decodeVertex14 buf p j).m_boneWeight.getD b 1 = 0) ∧
    (readU32 buf (p.m_vert_bone_index_offset.toNat + poolSize14 p * j) = 0x04030201 →
      (decodeVertex14 buf p j).m_boneIndex.take 4 = [1, 2, 3, 4]) := by
  have hcond : p.m_vert_bone_index_offset ≠ -1 ∧ p.m_vert_bone_weight_offset ≠ -1 := ⟨hb, hw⟩
  refine ⟨?_, ?_, ?_⟩
  · intro b hb4
    have hbc : b < BONE_COUNT := by
      have : (4 : Nat) ≤ BONE_COUNT := by norm_num [BONE_COUNT]
      omega
    constructor
    · simp only [decodeVertex14, if_pos hcond]
      rw [getD_range_map _ _ hbc, if_pos hb4]
    · simp only [decodeVertex14, if_pos hcond]
      rw [getD_range_map _ _ hbc, if_pos hb4]
  · intro b hb4 hbc
    have hnot : ¬ b < 4 := by omega
    constructor
    · simp only [decodeVertex14, if_pos hcond]
      rw [getD_range_map _ _ hbc, if_neg hnot]
    · simp only [decodeVertex14, if_pos hcond]
      rw [getD_range_map _ _ hbc, if_neg hnot]
  · intro hword
    simp only [decodeVertex14, if_pos hcond, hword]
    decide

/-- C6 witness: a concrete buffer holding the packed index word
0x04030201 at offset 0 decodes to bone slots [1, 2, 3, 4]. -/
theorem c6_skin_v2_packing_witness :
    (decodeVertex14 (fun i => [1, 2, 3, 4, 9, 0, 0, 0].getD i 0)
      { m_texcoord_mask := 0, m_texcoord_width := 0, m_material := 0, m_verts := 1,
        m_edges := 0, m_vert_position_offset := -1, m_vert_normal_offset := -1,
        m_vert_tangent_offset := -1, m_vert_texcoord_offset := -1,
        m_vert_color_offset := -1, m_vert_color2_offset := -1,
        m_vert_bone_index_offset := 0, m_vert_bone_weight_offset := 4,
        m_index_offset := 0 } 0).m_boneIndex.take 4 = [1, 2, 3, 4] := by
  exact (c6_skin_v2_packing (fun i => [1, 2, 3, 4, 9, 0, 0, 0].getD i 0) _ 0
    (by decide) (by decide)).2.2 (by decide)

/-- C7: in the version-1 skin decode two vertices of the same piece whose
16-bit bind indices agree decode to identical bone index and bone weight
arrays. -/
theorem c7_skin_v1_bind_equal (buf : Buf) (p : Pmg13Piece) (j1 j2 : Nat)
    (h : p.m_anim_bind_offset ≠ -1)
    (heq : readU16 buf (p.m_anim_bind_offset.toNat + 2 * j1)
         = readU16 buf (p.m_anim_bind_offset.toNat + 2 * j2)) :
    (decodeVertex13 buf p j1).m_boneIndex = (decodeVertex13 buf p j2).m_boneIndex ∧
    (decodeVertex13 buf p j1).m_boneWeight = (decodeVertex13 buf p j2).m_boneWeight := by
  constructor
  · simp only [decodeVertex13, if_pos h]
    rw [heq]
  · simp only [decodeVertex13, if_pos h]
    rw [heq]

/-- C7 witness: a concrete piece whose bind stream assigns the same table
entry to vertices 0 and 2 gives them identical skin arrays. -/
theorem c7_skin_v1_bind_equal_witness :
    (decodeVertex13 (fun i => [7, 0, 5, 0, 7, 0, 3, 9, 11, 13].getD i 0)
      { m_uv_mask := 0, m_uv_channels := 0, m_bone_count := 1, m_material := 0,
        m_verts := 3, m_edges := 0, m_vert_position_offset := -1,
        m_vert_normal_offset := -1, m_vert_tangent_offset := -1,
        m_vert_uv_offset := -1, m_vert_rgba_offset := -1, m_vert_rgba2_offset := -1,
        m_anim_bind_offset := 0, m_anim_bind_bones_offset := 0,
        m_anim_bind_bones_weight_offset := 2,
        m_triangle_offset := 0 } 0).m_boneIndex
      = (decodeVertex13 (fun i => [7, 0, 5, 0, 7, 0, 3, 9, 11, 13].getD i 0)
      { m_uv_mask := 0, m_uv_channels := 0, m_bone_count := 1, m_material := 0,
        m_verts := 3, m_edges := 0, m_vert_position_offset := -1,
        m_vert_normal_offset := -1, m_vert_tangent_offset := -1,
        m_vert_uv_offset := -1, m_vert_rgba_offset := -1, m_vert_rgba2_offset := -1,
        m_anim_bind_offset := 0, m_anim_bind_bones_offset := 0,
        m_anim_bind_bones_weight_offset := 2,
        m_triangle_offset := 0 } 2).m_boneIndex := by
  exact (c7_skin_v1_bind_equal (fun i => [7, 0, 5, 0, 7, 0, 3, 9, 11, 13].getD i 0)
    _ 0 2 (by decide) (by decide)).1

/-- C10: the version-2 loader gives every piece the single header
weight_width as its bone-influence width, and the aggregate skinned
vertex count is 0 when that width is 0 and the total vertex count
otherwise. -/
theorem c10_weight_width (m : Model) (buf : Buf) (g : Pmg14Recs)
    (hsig : sig14Ok buf) (h0 : m.m_skinVertCount = 0) (h1 : m.m_vertCount = 0) :
    (∀ pc ∈ ((m.loadModel0x14 buf g).1).m_pieces, pc.m_bones = g.m_weight_width) ∧
    (g.m_weight_width = 0 → ((m.loadModel0x14 buf g).1).m_skinVertCount = 0) ∧
    (0 < g.m_weight_width →
      ((m.loadModel0x14 buf g).1).m_skinVertCount = ((m.loadModel0x14 buf g).1).m_vertCount) := by
  simp only [Model.loadModel0x14, if_pos hsig]
  refine ⟨?_, ?_, ?_⟩
  · intro pc hpc
    simp only [List.mem_map] at hpc
    obtain ⟨i, _, rfl⟩ := hpc
    rfl
  · intro hww
    simp only [hww, lt_irrefl, if_false, h0, Nat.zero_add]
    exact sum_map_zero _
  · intro hww
    simp only [if_pos hww, h0, h1, Nat.zero_add]

/-- C10 witness: the concrete one-piece 0x14 file with weight width 2
gets skinned vertex count equal to its total vertex count. -/
theorem c10_weight_width_witness :
    (0 : Nat) < 2 ∧
    ((({} : Model).loadModel0x14 exBuf14 exRecs14).1).m_skinVertCount
      = ((({} : Model).loadModel0x14 exBuf14 exRecs14).1).m_vertCount := by
  refine ⟨by decide, ?_⟩
  exact (c10_weight_width {} exBuf14 exRecs14 (by decide) rfl rfl).2.2 (by decide)

/-- C8: under either schema version each decoded piece has
edges / 3 triangles, the aggregate triangle count is the sum of
edges / 3 over the pieces, and the aggregate vertex count is the sum of
the declared per-piece vertex counts. -/
theorem c8_counts (m13 m14 : Model) (buf13 buf14 : Buf) (g13 : Pmg13Recs) (g14 : Pmg14Recs)
    (hs13 : sig13Ok buf13) (hs14 : sig14Ok buf14)
    (hv13 : m13.m_vertCount = 0) (ht13 : m13.m_triangleCount = 0)
    (hv14 : m14.m_vertCount = 0) (ht14 : m14.m_triangleCount = 0) :
    ((∀ i, i < g13.pieces.length →
        (((m13.loadModel0x13 buf13 g13).1).m_pieces.getD i default).m_triangles.length
          = (g13.pieces.getD i default).m_edges / 3) ∧
      ((m13.loadModel0x13 buf13 g13).1).m_triangleCount
        = (g13.pieces.map fun p => p.m_edges / 3).sum ∧
      ((m13.loadModel0x13 buf13 g13).1).m_vertCount
        = (g13.pieces.map fun p => p.m_verts).sum) ∧
    ((∀ i, i < g14.pieces.length →
        (((m14.loadModel0x14 buf14 g14).1).m_pieces.getD i default).m_triangles.length
          = (g14.pieces.getD i default).m_edges / 3) ∧
      ((m14.loadModel0x14 buf14 g14).1).m_triangleCount
        = (g14.pieces.map fun p => p.m_edges / 3).sum ∧
      ((m14.loadModel0x14 buf14 g14).1).m_vertCount
        = (g14.pieces.map fun p => p.m_verts).sum) := by
  constructor
  · simp only [Model.loadModel0x13, if_pos hs13]
    refine ⟨?_, by simp [ht13], by simp [hv13]⟩
    intro i hi
    rw [getD_range_map _ _ hi]
    simp [decodePiece13]
  · simp only [Model.loadModel0x14, if_pos hs14]
    refine ⟨?_, by simp [ht14], by simp [hv14]⟩
    intro i hi
    rw [getD_range_map _ _ hi]
    simp [decodePiece14]

/-- C8 witness: concrete one-piece files under both versions; the piece
with 7 declared edges gets 7 / 3 = 2 triangles and the aggregates match. -/
theorem c8_counts_witness :
    (((({} : Model).loadModel0x13 exBuf13 exRecs13).1).m_pieces.getD 0 default).m_triangles.length
      = exPiece13Bare.m_edges / 3 ∧
    ((({} : Model).loadModel0x13 exBuf13 exRecs13).1).m_vertCount = 4 ∧
    ((({} : Model).loadModel0x14 exBuf14 exRecs14).1).m_triangleCount
      = (exRecs14.pieces.map fun p => p.m_edges / 3).sum := by
  have h := c8_counts {} {} exBuf13 exBuf14 exRecs13 exRecs14
    (by decide) (by decide) rfl rfl rfl rfl
  exact ⟨h.1.1 0 (by decide), h.1.2.2, h.2.2.1⟩

/-- The descriptor loader never touches the prefab or collision fields. -/
theorem loadDescriptor_frame (m : Model) (ml : String → List String) (dOpt : Option PmdFile) :
    ((m.loadDescriptor ml dOpt).1).m_prefab = m.m_prefab ∧
    ((m.loadDescriptor ml dOpt).1).m_collision = m.m_collision := by
  cases dOpt with
  | none => exact ⟨rfl, rfl⟩
  | some d =>
    by_cases h : d.m_version = PMD_SUPPORTED_VERSION <;>
      simp [Model.loadDescriptor, h]

/-- The geometry loader never touches the prefab or collision fields. -/
theorem loadModel_frame (m : Model) (gf : Option GeomFile) :
    ((m.loadModel gf).1).m_prefab = m.m_prefab ∧
    ((m.loadModel gf).1).m_collision = m.m_collision := by
  cases gf with
  | none => exact ⟨rfl, rfl⟩
  | some g =>
    simp only [Model.loadModel]
    by_cases h13 : readU32 g.buf 0 = FOURCC13
    · rw [if_pos h13]
      by_cases hs : sig13Ok g.buf <;> simp [Model.loadModel0x13, hs]
    · rw [if_neg h13]
      by_cases h14 : readU32 g.buf 0 = FOURCC14
      · rw [if_pos h14]
        by_cases hs : sig14Ok g.buf <;> simp [Model.loadModel0x14, hs]
      · rw [if_neg h14]
        exact ⟨rfl, rfl⟩

/-- The post-path load sequence leaves prefab and collision unchanged
when neither companion file exists. -/
theorem loadSteps_frame (m2 : Model) (env : LoadEnv)
    (hppd : env.ppdExists = false) (hpmc : env.pmcExists = false) :
    ((m2.loadSteps env).1).m_prefab = m2.m_prefab ∧
    ((m2.loadSteps env).1).m_collision = m2.m_collision := by
  obtain ⟨hdp, hdc⟩ := loadDescriptor_frame m2 env.matLoad env.pmd
  obtain ⟨hgp, hgc⟩ := loadModel_frame (m2.loadDescriptor env.matLoad env.pmd).1 env.geom
  simp only [Model.loadSteps]
  cases hr1 : (m2.loadDescriptor env.matLoad env.pmd).2 with
  | false =>
    simp only [hr1, Bool.false_eq_true, if_false]
    exact ⟨hdp, hdc⟩
  | true =>
    simp only [hr1, if_true]
    cases hr2 : ((m2.loadDescriptor env.matLoad env.pmd).1.loadModel env.geom).2 with
    | false =>
      simp only [hr2, Bool.false_eq_true, if_false]
      exact ⟨hgp.trans hdp, hgc.trans hdc⟩
    | true =>
      simp only [hr2, if_true, hppd, hpmc, Model.loadCollision, Bool.false_eq_true, if_false]
      exact ⟨hgp.trans hdp, hgc.trans hdc⟩

/-- C9: Model::destroy clears the six entity containers, zeroes the four
derived counts, clears the loaded flag and the file path and name, but
leaves the directory, the prefab reference and the collision reference
unchanged; consequently a reload whose model has no .ppd or .pmc
companion files retains the previous prefab and collision. -/
theorem c9_destroy_frame (m : Model) (env : LoadEnv) (fp : String)
    (hppd : env.ppdExists = false) (hpmc : env.pmcExists = false) :
    (m.destroy.m_bones = [] ∧ m.destroy.m_locators = [] ∧ m.destroy.m_parts = [] ∧
      m.destroy.m_pieces = [] ∧ m.destroy.m_looks = [] ∧ m.destroy.m_variants = []) ∧
    (m.destroy.m_vertCount = 0 ∧ m.destroy.m_triangleCount = 0 ∧
      m.destroy.m_skinVertCount = 0 ∧ m.destroy.m_materialCount = 0) ∧
    (m.destroy.m_loaded = false ∧ m.destroy.m_filePath = "" ∧ m.destroy.m_fileName = "") ∧
    (m.destroy.m_directory = m.m_directory ∧ m.destroy.m_prefab = m.m_prefab ∧
      m.destroy.m_collision = m.m_collision) ∧
    ((Model.load m env fp).1.m_prefab = m.m_prefab ∧
      (Model.load m env fp).1.m_collision = m.m_collision ∧
      ((Model.load m env fp).1).midFormatCompanionAttempts
        = (m.m_collision.isSome, m.m_prefab.isSome)) := by
  refine ⟨⟨rfl, rfl, rfl, rfl, rfl, rfl⟩, ⟨rfl, rfl, rfl, rfl⟩, ⟨rfl, rfl, rfl⟩,
    ⟨rfl, rfl, rfl⟩, ?_⟩
  have hd : (if m.m_loaded then m.destroy else m).m_prefab = m.m_prefab ∧
      (if m.m_loaded then m.destroy else m).m_collision = m.m_collision := by
    cases hL : m.m_loaded <;> simp [Model.destroy]
  simp only [Model.load]
  obtain ⟨hp, hc⟩ := loadSteps_frame
    { (if m.m_loaded then m.destroy else m) with
        m_filePath := fp,
        m_directory := directoryOf fp,
        m_fileName := fp.drop ((directoryOf fp).length + 1) } env hppd hpmc
  refine ⟨hp.trans hd.1, hc.trans hd.2, ?_⟩
  simp only [Model.midFormatCompanionAttempts, hp.trans hd.1, hc.trans hd.2]

/-- C9 witness: destroying the concrete model keeps directory, prefab and
collision, and reloading without companion files retains them. -/
theorem c9_destroy_frame_witness :
    exModel9.destroy.m_looks = [] ∧ exModel9.destroy.m_loaded = false ∧
    exModel9.destroy.m_directory = exModel9.m_directory ∧
    exModel9.destroy.m_prefab = exModel9.m_prefab ∧
    (Model.load exModel9 exEnv9 "a/b").1.m_prefab = exModel9.m_prefab ∧
    (Model.load exModel9 exEnv9 "a/b").1.m_collision = exModel9.m_collision ∧
    ((Model.load exModel9 exEnv9 "a/b").1).midFormatCompanionAttempts = (true, true) := by
  have h := c9_destroy_frame exModel9 exEnv9 "a/b" rfl rfl
  exact ⟨h.1.2.2.2.2.1, h.2.2.1.1, h.2.2.2.1.1, h.2.2.2.1.2.1, h.2.2.2.2.1,
    h.2.2.2.2.2.1, h.2.2.2.2.2.2⟩

/-- C5: for every accepted descriptor, the material alias of any look
i > 0 at slot k equals look 0's alias at that slot (aliases are generated
on the first look only and copied to the others). -/
theorem c5_alias_stability (m : Model) (matLoad : String → List String) (d : PmdFile)
    (hv : d.m_version = PMD_SUPPORTED_VERSION) (i k : Nat)
    (hi0 : 0 < i) (hi : i < d.m_look_count) (hk : k < d.m_material_count) :
    (m.loadDescriptor matLoad (some d)).2 = true ∧
    ((((m.loadDescriptor matLoad (some d)).1.m_looks.getD i default).m_materials.getD
        k default).m_alias
      = (((m.loadDescriptor matLoad (some d)).1.m_looks.getD 0 default).m_materials.getD
        k default).m_alias) := by
  have hne : ¬ d.m_version ≠ PMD_SUPPORTED_VERSION := by simp [hv]
  constructor
  · simp [Model.loadDescriptor, hne]
  · simp only [Model.loadDescriptor, if_neg hne]
    rw [getD_range_map _ _ hi, getD_range_map _ _ (Nat.lt_trans hi0 hi)]
    rw [if_neg (Nat.pos_iff_ne_zero.mp hi0), if_pos rfl]
    simp only [buildLookI]
    rw [getD_range_map _ _ hk]

/-- C5 witness: in the concrete two-look descriptor, look 1's alias at
slot 0 equals look 0's alias although the material paths differ. -/
theorem c5_alias_stability_witness :
    ((((({} : Model).loadDescriptor (fun _ => ["/tex/t.tobj"]) (some exPmdC5)).1.m_looks.getD
        1 default).m_materials.getD 0 default).m_alias
      = (((({} : Model).loadDescriptor (fun _ => ["/tex/t.tobj"])
          (some exPmdC5)).1.m_looks.getD 0 default).m_materials.getD 0 default).m_alias) := by
  exact (c5_alias_stability {} (fun _ => ["/tex/t.tobj"]) exPmdC5 rfl 1 0
    (by decide) (by decide) (by decide)).2

/-- C2 counterexample: the definition range [0, 1) contains one
unknown-typed definition; the claim says the attribute is dropped and the
list is one shorter (empty), but the decoder still appends it: the list
has length 1 and carries the default-constructed type. -/
theorem c2_counterexample :
    ((((({} : Model).loadDescriptor (fun _ => []) (some exPmdC2)).1.m_variants.getD
        0 default).m_parts.getD 0 default).m_attributes).length = 1 ∧
    ((((({} : Model).loadDescriptor (fun _ => []) (some exPmdC2)).1.m_variants.getD
        0 default).m_parts.getD 0 default).m_attributes.getD 0 default).m_type = none := by
  exact ⟨rfl, rfl⟩

/-- C2 amended: for every accepted descriptor the attribute list of
variant i, part j has exactly the length of the [from, to) definition
range — a definition with an unknown type code is warned about but still
appended, keeping the default-constructed (none) type. -/
theorem c2_attrib_range_length (m : Model) (ml : String → List String) (d : PmdFile)
    (hv : d.m_version = PMD_SUPPORTED_VERSION) (i j : Nat)
    (hi : i < d.m_variant_count) (hj : j < d.m_part_count) :
    ((((m.loadDescriptor ml (some d)).1.m_variants.getD i default).m_parts.getD
        j default).m_attributes).length
      = (d.attribLinkTo j - d.attribLinkFrom j).toNat ∧
    (∀ idx, idx < (d.attribLinkTo j - d.attribLinkFrom j).toNat →
      (d.attribDef (d.attribLinkFrom j + idx)).m_type ≠ 0 →
      ((((m.loadDescriptor ml (some d)).1.m_variants.getD i default).m_parts.getD
          j default).m_attributes.getD idx default).m_type = none) := by
  have hne : ¬ d.m_version ≠ PMD_SUPPORTED_VERSION := by simp [hv]
  simp only [Model.loadDescriptor, if_neg hne]
  rw [getD_range_map _ _ hi]
  simp only [buildVariant]
  rw [getD_range_map _ _ hj]
  constructor
  · simp [buildAttribs]
  · intro idx hidx htype
    simp only [buildAttribs]
    rw [getD_range_map _ _ hidx]
    simp [htype]

/-- C2 witness for the amended claim: in the concrete descriptor the
attribute list length equals the full range size 1. -/
theorem c2_attrib_range_length_witness :
    ((((({} : Model).loadDescriptor (fun _ => []) (some exPmdC2)).1.m_variants.getD
        0 default).m_parts.getD 0 default).m_attributes).length
      = (exPmdC2.attribLinkTo 0 - exPmdC2.attribLinkFrom 0).toNat := by
  exact (c2_attrib_range_length {} (fun _ => []) exPmdC2 rfl 0 0
    (by decide) (by decide)).1

/-- The descriptor loader never touches the geometry containers, the
geometry-derived counts or the loaded flag. -/
theorem loadDescriptor_geom_frame (m : Model) (ml : String → List String)
    (dOpt : Option PmdFile) :
    ((m.loadDescriptor ml dOpt).1).m_bones = m.m_bones ∧
    ((m.loadDescriptor ml dOpt).1).m_locators = m.m_locators ∧
    ((m.loadDescriptor ml dOpt).1).m_parts = m.m_parts ∧
    ((m.loadDescriptor ml dOpt).1).m_pieces = m.m_pieces ∧
    ((m.loadDescriptor ml dOpt).1).m_vertCount = m.m_vertCount ∧
    ((m.loadDescriptor ml dOpt).1).m_triangleCount = m.m_triangleCount ∧
    ((m.loadDescriptor ml dOpt).1).m_skinVertCount = m.m_skinVertCount ∧
    ((m.loadDescriptor ml dOpt).1).m_loaded = m.m_loaded := by
  cases dOpt with
  | none => exact ⟨rfl, rfl, rfl, rfl, rfl, rfl, rfl, rfl⟩
  | some d =>
    by_cases h : d.m_version = PMD_SUPPORTED_VERSION <;>
      simp [Model.loadDescriptor, h]

/-- An unrecognized leading tag makes Model::loadModel fail with the
model untouched. -/
theorem loadModel_badtag (m : Model) (g : GeomFile)
    (h13 : readU32 g.buf 0 ≠ FOURCC13) (h14 : readU32 g.buf 0 ≠ FOURCC14) :
    m.loadModel (some g) = (m, false) := by
  simp only [Model.loadModel]
  rw [if_neg h13, if_neg h14]

/-- Under an unrecognized geometry tag the post-path load sequence fails
and leaves the geometry containers, counts and loaded flag unchanged. -/
theorem loadSteps_badtag (m2 : Model) (env : LoadEnv) (g : GeomFile)
    (hg : env.geom = some g)
    (h13 : readU32 g.buf 0 ≠ FOURCC13) (h14 : readU32 g.buf 0 ≠ FOURCC14) :
    (m2.loadSteps env).2 = false ∧
    ((m2.loadSteps env).1).m_bones = m2.m_bones ∧
    ((m2.loadSteps env).1).m_locators = m2.m_locators ∧
    ((m2.loadSteps env).1).m_parts = m2.m_parts ∧
    ((m2.loadSteps env).1).m_pieces = m2.m_pieces ∧
    ((m2.loadSteps env).1).m_vertCount = m2.m_vertCount ∧
    ((m2.loadSteps env).1).m_triangleCount = m2.m_triangleCount ∧
    ((m2.loadSteps env).1).m_skinVertCount = m2.m_skinVertCount ∧
    ((m2.loadSteps env).1).m_loaded = m2.m_loaded := by
  obtain ⟨hb, hl, hp, hpc, hv, ht, hs, hld⟩ :=
    loadDescriptor_geom_frame m2 env.matLoad env.pmd
  simp only [Model.loadSteps, hg]
  cases hr1 : (m2.loadDescriptor env.matLoad env.pmd).2 with
  | false =>
    simp only [hr1, Bool.false_eq_true, if_false]
    exact ⟨trivial, hb, hl, hp, hpc, hv, ht, hs, hld⟩
  | true =>
    simp only [hr1, if_true,
      loadModel_badtag (m2.loadDescriptor env.matLoad env.pmd).1 g h13 h14,
      Bool.false_eq_true, if_false]
    exact ⟨trivial, hb, hl, hp, hpc, hv, ht, hs, hld⟩

/-- C1 amended: when the geometry file starts with an unrecognized tag,
Model::load returns false, the loaded flag stays false and the geometry
containers (bones, locators, parts, pieces) and the vertex, triangle and
skinned-vertex counts keep their pristine pre-load values; the descriptor
stage, which runs first, may however already have populated looks,
variants and materialCount, and the path fields are set. -/
theorem c1_badtag_amended (m : Model) (env : LoadEnv) (fp : String) (g : GeomFile)
    (hg : env.geom = some g)
    (h13 : readU32 g.buf 0 ≠ FOURCC13) (h14 : readU32 g.buf 0 ≠ FOURCC14)
    (hb : m.m_bones = []) (hl : m.m_locators = []) (hp : m.m_parts = [])
    (hpc : m.m_pieces = []) (hv : m.m_vertCount = 0) (ht : m.m_triangleCount = 0)
    (hs : m.m_skinVertCount = 0) (hld : m.m_loaded = false) :
    (Model.load m env fp).2 = false ∧
    (Model.load m env fp).1.m_loaded = false ∧
    (Model.load m env fp).1.m_bones = [] ∧
    (Model.load m env fp).1.m_locators = [] ∧
    (Model.load m env fp).1.m_parts = [] ∧
    (Model.load m env fp).1.m_pieces = [] ∧
    (Model.load m env fp).1.m_vertCount = 0 ∧
    (Model.load m env fp).1.m_triangleCount = 0 ∧
    (Model.load m env fp).1.m_skinVertCount = 0 := by
  have H := loadSteps_badtag
    { (if m.m_loaded then m.destroy else m) with
        m_filePath := fp,
        m_directory := directoryOf fp,
        m_fileName := fp.drop ((directoryOf fp).length + 1) } env g hg h13 h14
  have hifb : (if m.m_loaded = true then m.destroy else m).m_bones = [] := by
    rw [hld]; simpa using hb
  have hifl : (if m.m_loaded = true then m.destroy else m).m_locators = [] := by
    rw [hld]; simpa using hl
  have hifp : (if m.m_loaded = true then m.destroy else m).m_parts = [] := by
    rw [hld]; simpa using hp
  have hifpc : (if m.m_loaded = true then m.destroy else m).m_pieces = [] := by
    rw [hld]; simpa using hpc
  have hifv : (if m.m_loaded = true then m.destroy else m).m_vertCount = 0 := by
    rw [hld]; simpa using hv
  have hift : (if m.m_loaded = true then m.destroy else m).m_triangleCount = 0 := by
    rw [hld]; simpa using ht
  have hifs : (if m.m_loaded = true then m.destroy else m).m_skinVertCount = 0 := by
    rw [hld]; simpa using hs
  have hifld : (if m.m_loaded = true then m.destroy else m).m_loaded = false := by
    rw [hld]; simpa using hld
  exact ⟨H.1, H.2.2.2.2.2.2.2.2.trans hifld, H.2.1.trans hifb, H.2.2.1.trans hifl,
    H.2.2.2.1.trans hifp, H.2.2.2.2.1.trans hifpc, H.2.2.2.2.2.1.trans hifv,
    H.2.2.2.2.2.2.1.trans hift, H.2.2.2.2.2.2.2.1.trans hifs⟩

/-- C1 counterexample: loading a fresh model over the bad-tag geometry
file returns false as the claim says, but the model is NOT in the
pre-load state: the looks container was already populated by the
descriptor stage that runs before the geometry stage. -/
theorem c1_counterexample :
    (Model.load {} exEnvC1 "a/b").2 = false ∧
    (Model.load {} exEnvC1 "a/b").1.m_looks ≠ [] := by
  exact ⟨rfl, by decide⟩

/-- C1 witness for the amended claim, at the concrete environment. -/
theorem c1_badtag_amended_witness :
    (Model.load {} exEnvC1 "a/b").2 = false ∧
    (Model.load {} exEnvC1 "a/b").1.m_loaded = false ∧
    (Model.load {} exEnvC1 "a/b").1.m_pieces = [] := by
  have H := c1_badtag_amended {} exEnvC1 "a/b" exGeomBad rfl
    (by decide) (by decide) rfl rfl rfl rfl rfl rfl rfl rfl
  exact ⟨H.1, H.2.1, H.2.2.2.2.2.1⟩

/-- The color channel decode 2 * v / 255 is injective on byte values. -/
theorem colorChan_inj {a b : Nat} (h : colorChan a = colorChan b) : a = b := by
  unfold colorChan at h
  rw [div_eq_div_iff (by norm_num) (by norm_num)] at h
  have h2 : (a : Rat) = b := by linarith
  exact_mod_cast h2

/-- Two decoded colors differ whenever their first channel bytes differ. -/
theorem readColor_ne_of_first {b : Buf} {i j : Nat} (h : readU8 b i ≠ readU8 b j) :
    readColor b i ≠ readColor b j := by
  intro he
  apply h
  simp only [readColor, List.cons.injEq] at he
  exact colorChan_inj he.1

/-- C3: the version-2 decoder reads the second color from the FIRST color
stream's offset (model.cpp line 537 uses m_vert_color_offset), so at this
concrete input, where the two streams hold different bytes, the decoded
color2 equals the decoded color and differs from the value at the second
stream's own offset — contradicting the claim. -/
theorem c3_color2_copy_bug :
    (decodeVertex14 exBufC3 exPieceC3 0).m_color2
      = (decodeVertex14 exBufC3 exPieceC3 0).m_color ∧
    (decodeVertex14 exBufC3 exPieceC3 0).m_color2
      ≠ readColor exBufC3 (exPieceC3.m_vert_color2_offset.toNat + poolSize14 exPieceC3 * 0) ∧
    readColor exBufC3 100 ≠ readColor exBufC3 104 := by
  refine ⟨rfl, ?_, ?_⟩
  · show readColor exBufC3 100 ≠ readColor exBufC3 104
    exact readColor_ne_of_first (by decide)
  · exact readColor_ne_of_first (by decide)

/-- C4 counterexample: for the skinned version-1 piece the sum of all
present stream sizes is 16, but vertex 1's position is NOT read at
base + 16 * 1 (the code uses the static-only stride 12 there). -/
theorem c4_counterexample :
    totalPool13 exPieceC4 = 16 ∧
    ((decodePiece13 exBufC4 0 exPieceC4).m_vertices.getD 1 default).m_position
      ≠ readF3 exBufC4 (exPieceC4.m_vert_position_offset.toNat + totalPool13 exPieceC4 * 1) := by
  exact ⟨rfl, by decide⟩

/-- C4 amended: version 2 uses the single stride poolSize14 (the sum of
all present stream sizes) for every stream at its own base offset —
except the second color, which is read from the first color stream's base
(the slip recorded in C3).  Version 1 computes two strides: present
static streams (position, normal, tangent) advance by poolStatic13 and
dynamic streams (texcoords, colors) by poolDynamic13; only for a piece
with bone count zero do both strides equal the total sum, recovering the
claimed single-stride description. -/
theorem c4_stride_amended (buf : Buf) (q : Pmg13Piece) (p : Pmg14Piece) (j k : Nat) :
    ((p.m_vert_position_offset ≠ -1 →
        (decodeVertex14 buf p j).m_position
          = readF3 buf (p.m_vert_position_offset.toNat + poolSize14 p * j)) ∧
      (p.m_vert_normal_offset ≠ -1 →
        (decodeVertex14 buf p j).m_normal
          = readF3 buf (p.m_vert_normal_offset.toNat + poolSize14 p * j)) ∧
      (p.m_vert_tangent_offset ≠ -1 →
        (decodeVertex14 buf p j).m_tangent
          = readTangent buf (p.m_vert_tangent_offset.toNat + poolSize14 p * j)) ∧
      (p.m_vert_texcoord_offset ≠ -1 → k < p.m_texcoord_width →
        (decodeVertex14 buf p j).m_texcoords.getD k (0, 0)
          = readF2 buf (p.m_vert_texcoord_offset.toNat + poolSize14 p * j + 8 * k)) ∧
      (p.m_vert_color_offset ≠ -1 →
        (decodeVertex14 buf p j).m_color
          = readColor buf (p.m_vert_color_offset.toNat + poolSize14 p * j)) ∧
      (p.m_vert_color2_offset ≠ -1 →
        (decodeVertex14 buf p j).m_color2
          = readColor buf (p.m_vert_color_offset.toNat + poolSize14 p * j))) ∧
    ((q.m_vert_position_offset ≠ -1 →
        (decodeVertex13 buf q j).m_position
          = readF3 buf (q.m_vert_position_offset.toNat + poolStatic13 q * j)) ∧
      (q.m_vert_normal_offset ≠ -1 →
        (decodeVertex13 buf q j).m_normal
          = readF3 buf (q.m_vert_normal_offset.toNat + poolStatic13 q * j)) ∧
      (q.m_vert_tangent_offset ≠ -1 →
        (decodeVertex13 buf q j).m_tangent
          = readTangent buf (q.m_vert_tangent_offset.toNat + poolStatic13 q * j)) ∧
      (q.m_vert_uv_offset ≠ -1 → k < q.m_uv_channels →
        (decodeVertex13 buf q j).m_texcoords.getD k (0, 0)
          = readF2 buf (q.m_vert_uv_offset.toNat + poolDynamic13 q * j + 8 * k)) ∧
      (q.m_vert_rgba_offset ≠ -1 →
        (decodeVertex13 buf q j).m_color
          = readColor buf (q.m_vert_rgba_offset.toNat + poolDynamic13 q * j)) ∧
      (q.m_vert_rgba2_offset ≠ -1 →
        (decodeVertex13 buf q j).m_color2
          = readColor buf (q.m_vert_rgba2_offset.toNat + poolDynamic13 q * j)) ∧
      (q.m_bone_count = 0 →
        poolStatic13 q = totalPool13 q ∧ poolDynamic13 q = totalPool13 q)) := by
  refine ⟨⟨?_, ?_, ?_, ?_, ?_, ?_⟩, ?_, ?_, ?_, ?_, ?_, ?_, ?_⟩
  · intro h; simp only [decodeVertex14, if_pos h]
  · intro h; simp only [decodeVertex14, if_pos h]
  · intro h; simp only [decodeVertex14, if_pos h]
  · intro h hk
    simp only [decodeVertex14, if_pos h]
    rw [getD_range_map _ _ hk]
  · intro h; simp only [decodeVertex14, if_pos h]
  · intro h; simp only [decodeVertex14, if_pos h]
  · intro h; simp only [decodeVertex13, if_pos h]
  · intro h; simp only [decodeVertex13, if_pos h]
  · intro h; simp only [decodeVertex13, if_pos h]
  · intro h hk
    simp only [decodeVertex13, if_pos h]
    rw [getD_range_map _ _ hk]
  · intro h; simp only [decodeVertex13, if_pos h]
  · intro h; simp only [decodeVertex13, if_pos h]
  · intro h0
    constructor <;> simp [poolStatic13, poolDynamic13, totalPool13, h0]

/-- C4 witness for the amended claim: the version-2 piece of C3 decodes
its first color at base + stride * j, and the unskinned version-1 piece
has equal static, dynamic and total strides. -/
theorem c4_stride_amended_witness :
    (decodeVertex14 exBufC3 exPieceC3 0).m_color
      = readColor exBufC3 (exPieceC3.m_vert_color_offset.toNat + poolSize14 exPieceC3 * 0) ∧
    (decodeVertex13 exBufC4 exPieceC4w 1).m_position
      = readF3 exBufC4 (exPieceC4w.m_vert_position_offset.toNat + poolStatic13 exPieceC4w * 1) ∧
    poolStatic13 exPieceC4w = totalPool13 exPieceC4w ∧
    poolDynamic13 exPieceC4w = totalPool13 exPieceC4w := by
  have H := c4_stride_amended exBufC3 exPieceC4w exPieceC3 0 0
  have H2 := c4_stride_amended exBufC4 exPieceC4w exPieceC3 1 0
  exact ⟨H.1.2.2.2.2.1 (by decide), H2.2.1 (by decide),
    (H2.2.2.2.2.2.2.2 (by decide)).1, (H2.2.2.2.2.2.2.2 (by decide)).2⟩

end ConverterPIX
